import Mathlib

/-!
Shallow embedding of the squirrel context-aware execution layer
(src/squirrel_ctx.go): the capability interfaces, the dispatch helpers
ExecContextWith / QueryContextWith / QueryRowContextWith, the pgx adapter
with its commandTagWrapper execution outcome, and the row-cursor wrappers
StdRowsWrapper and PgxRowsWrapper. External clients (database/sql handles,
pgx handles) are modelled as records of observable behaviour; dispatch
helpers additionally return the list of underlying client calls performed,
so that claims about the client being (or not being) invoked are statable.
-/

/-- Go error values as produced by errors.New, identified by their message;
a Go nil error is `none` at type `Option GoError`. -/
structure GoError where
  msg : String
  deriving DecidableEq

/-- Cancellation/deadline context values. `Background` is the default
context carrying no deadline and no cancellation signal
(context.Background()). -/
inductive Ctx where
  | Background : Ctx
  | withDeadline : Nat → Ctx
  | withCancel : Nat → Ctx
  deriving DecidableEq

/-- Whether a context carries a deadline. -/
def Ctx.hasDeadline : Ctx → Bool
  | .withDeadline _ => true
  | _ => false

/-- Whether a context carries a cancellation signal. -/
def Ctx.hasCancel : Ctx → Bool
  | .withCancel _ => true
  | _ => false

/-- Opaque positional argument values (Go `interface\x7b\x7d` arguments). -/
abbrev Arg := Nat

/-- Opaque scan destinations (Go pointer destinations). -/
abbrev Dest := Nat

/-- The statement-producer contract: ToSql yields the
(queryText, arguments, error) triple of a single build. -/
structure Sqlizer where
  ToSql : String × List Arg × Option GoError

/-- A value of the RowScanner interface: Scan copies one row into the
given destinations and reports an error. -/
structure RowScanner where
  Scan : List Dest → Option GoError

/-- Modelled from the spec: the Row type of the repository's row.go, which
is not under src/. Per the spec, a Row Scanner either delegates to a live
underlying scanner or carries a deferred build error. -/
structure Row where
  RowScanner : RowScanner
  err : Option GoError

/-- Modelled from the spec: Row.Scan is where a deferred build error first
becomes observable; when err is nil it delegates to the wrapped scanner. -/
def Row.Scan (r : Row) (dest : List Dest) : Option GoError :=
  match r.err with
  | some e => some e
  | none => r.RowScanner.Scan dest

/-- The sql.Result interface surface: each method yields an
(int64, error) pair. -/
structure SqlResult where
  RowsAffected : Int × Option GoError
  LastInsertId : Int × Option GoError
  deriving DecidableEq

/-- Model of a native *sql.Rows handle (external standard client): the
behaviour the wrapper can observe, including the error its native Close
returns and the error its Err reports after Close (the native client may
or may not record the close error there). -/
structure SqlRows where
  closeRet : Option GoError
  errAfterClose : Option GoError
  err : Option GoError
  next : Bool
  scan : List Dest → Option GoError
  columns : Option (List String) × Option GoError

/-- Native Close of the standard client: returns its error together with
the post-close handle, on which Err reports whatever the native client
records after closing. -/
def SqlRows.Close (r : SqlRows) : Option GoError × SqlRows :=
  (r.closeRet, { r with err := r.errAfterClose })

/-- The standard-family cursor wrapper around a native *sql.Rows. -/
structure StdRowsWrapper where
  Rows : SqlRows

/-- Close delegates to the native Close and discards the error it returns
(Go: `_ = r.Rows.Close()`); only the post-close handle remains. -/
def StdRowsWrapper.Close (r : StdRowsWrapper) : StdRowsWrapper :=
  StdRowsWrapper.mk (r.Rows.Close).2

/-- Err delegates to the native Err. -/
def StdRowsWrapper.Err (r : StdRowsWrapper) : Option GoError :=
  r.Rows.err

/-- Next delegates to the native Next. -/
def StdRowsWrapper.Next (r : StdRowsWrapper) : Bool :=
  r.Rows.next

/-- Scan delegates to the native Scan. -/
def StdRowsWrapper.Scan (r : StdRowsWrapper) (dest : List Dest) : Option GoError :=
  r.Rows.scan dest

/-- Columns delegates to the native Columns. -/
def StdRowsWrapper.Columns (r : StdRowsWrapper) : Option (List String) × Option GoError :=
  r.Rows.columns

/-- A pgconn field description; only its Name is consumed by the layer. -/
structure FieldDescription where
  Name : String
  deriving DecidableEq

/-- Model of a native pgx.Rows handle (external alternate client): its
field-description list is either nil (`none`) or a list of descriptions. -/
structure PgxRows where
  err : Option GoError
  next : Bool
  scan : List Dest → Option GoError
  FieldDescriptions : Option (List FieldDescription)

/-- The alternate-family cursor wrapper around a native pgx.Rows. -/
structure PgxRowsWrapper where
  Rows : PgxRows

/-- Close delegates to the native Close, which returns nothing. -/
def PgxRowsWrapper.Close (_ : PgxRowsWrapper) : Unit := ()

/-- Err delegates to the native Err. -/
def PgxRowsWrapper.Err (r : PgxRowsWrapper) : Option GoError :=
  r.Rows.err

/-- Next delegates to the native Next. -/
def PgxRowsWrapper.Next (r : PgxRowsWrapper) : Bool :=
  r.Rows.next

/-- Scan delegates to the native Scan. -/
def PgxRowsWrapper.Scan (r : PgxRowsWrapper) (dest : List Dest) : Option GoError :=
  r.Rows.scan dest

/-- Columns derives names from the native field-description list, failing
with the introspection error when the list is nil. -/
def PgxRowsWrapper.Columns (r : PgxRowsWrapper) : Option (List String) × Option GoError :=
  match r.Rows.FieldDescriptions with
  | none => (none, some (GoError.mk "no field descriptions"))
  | some fields => (some (fields.map FieldDescription.Name), none)

/-- A pgconn.CommandTag: exposes its native affected-row count. -/
structure CommandTag where
  RowsAffected : Int
  deriving DecidableEq

/-- The Execution Outcome of the pgx adapter: wraps a native command tag
into the sql.Result shape. -/
structure commandTagWrapper where
  CommandTag : CommandTag
  deriving DecidableEq

/-- RowsAffected returns the native command tag count with a nil error. -/
def commandTagWrapper.RowsAffected (ct : commandTagWrapper) : Int × Option GoError :=
  (ct.CommandTag.RowsAffected, none)

/-- LastInsertId always fails with the capability-unsupported error. -/
def commandTagWrapper.LastInsertId (_ : commandTagWrapper) : Int × Option GoError :=
  (0, some (GoError.mk "LastInsertId is not supported by pgx"))

/-- The sql.Result interface view of a commandTagWrapper value. -/
def commandTagWrapper.toResult (ct : commandTagWrapper) : SqlResult :=
  SqlResult.mk (commandTagWrapper.RowsAffected ct) (commandTagWrapper.LastInsertId ct)

/-- A value of the squirrel Rows interface: one of the two cursor
wrappers. -/
inductive RowsVal where
  | std : StdRowsWrapper → RowsVal
  | pgx : PgxRowsWrapper → RowsVal

/-- ExecerContext capability: the ExecContext behaviour of an underlying
client, returning a possibly-nil sql.Result and an error. -/
abbrev ExecerContext := Ctx → String → List Arg → Option SqlResult × Option GoError

/-- QueryerContext capability: the QueryContext behaviour of an underlying
client, returning a possibly-nil cursor and an error. -/
abbrev QueryerContext := Ctx → String → List Arg → Option RowsVal × Option GoError

/-- QueryRowerContext capability: the QueryRowContext behaviour of an
underlying client, returning a scanner. -/
abbrev QueryRowerContext := Ctx → String → List Arg → RowScanner

/-- A record of one invocation of an underlying client capability
method. -/
structure ClientCall where
  ctx : Ctx
  query : String
  args : List Arg
  deriving DecidableEq

/-- ExecContextWith builds the SQL from s, returns immediately with the nil
result and the build error when ToSql fails, and otherwise dispatches to
the client; the second component is the list of client calls performed. -/
def ExecContextWith (ctx : Ctx) (db : ExecerContext) (s : Sqlizer) :
    (Option SqlResult × Option GoError) × List ClientCall :=
  let (query, args, err) := s.ToSql
  match err with
  | some e => ((none, some e), [])
  | none => (db ctx query args, [ClientCall.mk ctx query args])

/-- QueryContextWith builds the SQL from s, returns immediately with the
nil cursor and the build error when ToSql fails, and otherwise dispatches
to the client; the second component is the list of client calls
performed. -/
def QueryContextWith (ctx : Ctx) (db : QueryerContext) (s : Sqlizer) :
    (Option RowsVal × Option GoError) × List ClientCall :=
  let (query, args, err) := s.ToSql
  match err with
  | some e => ((none, some e), [])
  | none => (db ctx query args, [ClientCall.mk ctx query args])

/-- QueryRowContextWith builds the SQL from s and unconditionally
dispatches to the client, wrapping the returned scanner together with the
build error in a Row; the second component is the list of client calls
performed. -/
def QueryRowContextWith (ctx : Ctx) (db : QueryRowerContext) (s : Sqlizer) :
    Row × List ClientCall :=
  let (query, args, err) := s.ToSql
  (Row.mk (db ctx query args) err, [ClientCall.mk ctx query args])

/-- The Pgx client contract: cancellable-only native methods. -/
structure Pgx where
  QueryContext : Ctx → String → List Arg → PgxRows × Option GoError
  Exec : Ctx → String → List Arg → CommandTag × Option GoError
  QueryRow : Ctx → String → List Arg → RowScanner

/-- The alternate-client adapter around a Pgx handle. -/
structure pgxRunner where
  Pgx : Pgx

/-- QueryRowContext delegates to the native cancellable QueryRow. -/
def pgxRunner.QueryRowContext (r : pgxRunner) (ctx : Ctx) (query : String)
    (args : List Arg) : RowScanner :=
  r.Pgx.QueryRow ctx query args

/-- ExecContext wraps the native command tag in the sql.Result view and
passes the native error through unmodified. -/
def pgxRunner.ExecContext (r : pgxRunner) (ctx : Ctx) (query : String)
    (args : List Arg) : Option SqlResult × Option GoError :=
  let (ct, err) := r.Pgx.Exec ctx query args
  (some (commandTagWrapper.mk ct).toResult, err)

/-- QueryRow synthesizes the non-cancellable variant by delegating to the
cancellable native QueryRow with the background context. -/
def pgxRunner.QueryRow (r : pgxRunner) (query : String) (args : List Arg) : RowScanner :=
  r.Pgx.QueryRow Ctx.Background query args

/-- QueryContext delegates to the native QueryContext, returning the nil
cursor on a native error and otherwise the wrapped native cursor. -/
def pgxRunner.QueryContext (r : pgxRunner) (ctx : Ctx) (query : String)
    (args : List Arg) : Option RowsVal × Option GoError :=
  let (rows, err) := r.Pgx.QueryContext ctx query args
  match err with
  | some e => (none, some e)
  | none => (some (RowsVal.pgx (PgxRowsWrapper.mk rows)), none)

/-- A build error used in concrete checks. -/
def buildErrEx : GoError := GoError.mk "build failed"

/-- A Sqlizer whose build fails. -/
def sqlizerFailEx : Sqlizer := Sqlizer.mk ("", [], some buildErrEx)

/-- A Sqlizer whose build succeeds. -/
def sqlizerOkEx : Sqlizer := Sqlizer.mk ("UPDATE t SET x=1", [], none)

/-- A scanner whose Scan always succeeds. -/
def scannerEx : RowScanner := RowScanner.mk (fun _ => none)

/-- A single-row client capability used in concrete checks. -/
def queryRowerEx : QueryRowerContext := fun _ _ _ => scannerEx

/-- An exec client capability used in concrete checks. -/
def execerEx : ExecerContext := fun _ _ _ =>
  (some (SqlResult.mk (3, none) (7, none)), none)

/-- A query client capability used in concrete checks. -/
def queryerEx : QueryerContext := fun _ _ _ => (none, some (GoError.mk "q"))

/-- A Pgx handle whose Exec reports 3 affected rows and no error. -/
def pgxEx : Pgx :=
  Pgx.mk (fun _ _ _ => (PgxRows.mk none false (fun _ => none) none, none))
    (fun _ _ _ => (CommandTag.mk 3, none))
    (fun _ _ _ => scannerEx)

/-- A Pgx handle whose Exec reports an error alongside a command tag with 5
affected rows. -/
def pgxErrEx : Pgx :=
  Pgx.mk (fun _ _ _ => (PgxRows.mk none false (fun _ => none) none, none))
    (fun _ _ _ => (CommandTag.mk 5, some (GoError.mk "exec failed")))
    (fun _ _ _ => scannerEx)

/-- A native standard cursor whose Close errs and whose client records the
close error for later Err calls. -/
def sqlRowsEx : SqlRows :=
  SqlRows.mk (some (GoError.mk "close failed")) (some (GoError.mk "close failed"))
    none false (fun _ => none) (none, none)

/-- A native pgx cursor with a nil field-description list. -/
def pgxRowsNilFieldsEx : PgxRows := PgxRows.mk none false (fun _ => none) none

/-- A native pgx cursor with two named field descriptions. -/
def pgxRowsNamedFieldsEx : PgxRows :=
  PgxRows.mk none false (fun _ => none)
    (some [FieldDescription.mk "id", FieldDescription.mk "name"])

/-- A native pgx cursor with a non-nil but empty field-description list. -/
def pgxRowsEmptyFieldsEx : PgxRows := PgxRows.mk none false (fun _ => none) (some [])

/-- C1 counterexample: for a Sqlizer whose ToSql fails, QueryRowContextWith
still invokes the client's QueryRowContext once, so the claim that the
underlying client is never invoked fails at this concrete input. -/
theorem queryRowContextWith_still_invokes_client_cex :
    (QueryRowContextWith Ctx.Background queryRowerEx sqlizerFailEx).2 ≠ [] := by
  decide

/-- C1 (amended): when ToSql returns a build error, QueryRowContextWith
returns a Row whose Scan yields exactly that build error without consulting
the wrapped scanner; however the client's QueryRowContext is still invoked
once, with the query and arguments ToSql produced. -/
theorem queryRowContextWith_build_error_deferred (ctx : Ctx)
    (db : QueryRowerContext) (s : Sqlizer) (q : String) (a : List Arg)
    (e : GoError) (h : s.ToSql = (q, a, some e)) :
    (QueryRowContextWith ctx db s).1.err = some e ∧
    (∀ dest, (QueryRowContextWith ctx db s).1.Scan dest = some e) ∧
    (QueryRowContextWith ctx db s).2 = [ClientCall.mk ctx q a] := by
  refine ⟨?_, ?_, ?_⟩ <;> simp [QueryRowContextWith, h, Row.Scan]

/-- C1 witness: the amended theorem instantiated at a concrete failing
Sqlizer and a concrete client. -/
theorem queryRowContextWith_build_error_deferred_witness :
    Sqlizer.ToSql sqlizerFailEx = ("", [], some buildErrEx) ∧
    (QueryRowContextWith Ctx.Background queryRowerEx sqlizerFailEx).1.Scan [0] =
      some buildErrEx :=
  ⟨rfl, (queryRowContextWith_build_error_deferred Ctx.Background queryRowerEx
    sqlizerFailEx "" [] buildErrEx rfl).2.1 [0]⟩

/-- C2: when ToSql returns a build error, ExecContextWith and
QueryContextWith return the nil result / nil cursor together with exactly
that error and perform no client call. -/
theorem execWith_queryWith_build_error_short_circuit (ctx : Ctx)
    (dbE : ExecerContext) (dbQ : QueryerContext) (s : Sqlizer)
    (q : String) (a : List Arg) (e : GoError)
    (h : s.ToSql = (q, a, some e)) :
    ExecContextWith ctx dbE s = ((none, some e), []) ∧
    QueryContextWith ctx dbQ s = ((none, some e), []) := by
  constructor <;> simp [ExecContextWith, QueryContextWith, h]

/-- C2 witness: the theorem instantiated at a concrete failing Sqlizer and
concrete clients. -/
theorem execWith_queryWith_build_error_short_circuit_witness :
    Sqlizer.ToSql sqlizerFailEx = ("", [], some buildErrEx) ∧
    ExecContextWith Ctx.Background execerEx sqlizerFailEx =
      ((none, some buildErrEx), []) :=
  ⟨rfl, (execWith_queryWith_build_error_short_circuit Ctx.Background execerEx
    queryerEx sqlizerFailEx "" [] buildErrEx rfl).1⟩

/-- C3: when ToSql succeeds, ExecContextWith performs exactly one client
call carrying the caller's context and the produced (queryText, arguments)
pair and returns the client's outcome unmodified; the pgx adapter's
ExecContext in turn returns the native error unmodified, with the native
command tag wrapped by the rows-affected / last-insert-id mapping. -/
theorem execContextWith_success_dispatch (ctx : Ctx) (db : ExecerContext)
    (s : Sqlizer) (q : String) (a : List Arg) (h : s.ToSql = (q, a, none)) :
    ExecContextWith ctx db s = (db ctx q a, [ClientCall.mk ctx q a]) ∧
    ∀ p : Pgx, pgxRunner.ExecContext (pgxRunner.mk p) ctx q a =
      (some (commandTagWrapper.mk (p.Exec ctx q a).1).toResult, (p.Exec ctx q a).2) := by
  constructor
  · simp [ExecContextWith, h]
  · intro p
    rfl

/-- C3 witness: the theorem instantiated at a concrete succeeding Sqlizer
and a concrete exec client. -/
theorem execContextWith_success_dispatch_witness :
    Sqlizer.ToSql sqlizerOkEx = ("UPDATE t SET x=1", [], none) ∧
    ExecContextWith Ctx.Background execerEx sqlizerOkEx =
      ((some (SqlResult.mk (3, none) (7, none)), none),
        [ClientCall.mk Ctx.Background "UPDATE t SET x=1" []]) :=
  ⟨rfl, (execContextWith_success_dispatch Ctx.Background execerEx sqlizerOkEx
    "UPDATE t SET x=1" [] rfl).1⟩

/-- C4: LastInsertId on every pgx execution outcome returns the declared
capability-unsupported error, never a zero value with a nil error. -/
theorem commandTagWrapper_lastInsertId_unsupported (ct : commandTagWrapper) :
    commandTagWrapper.LastInsertId ct =
      (0, some (GoError.mk "LastInsertId is not supported by pgx")) ∧
    (commandTagWrapper.LastInsertId ct).2 ≠ none := by
  exact ⟨rfl, by simp [commandTagWrapper.LastInsertId]⟩

/-- C5: RowsAffected on every pgx execution outcome returns the native
command tag's affected-row count together with a nil error. -/
theorem commandTagWrapper_rowsAffected_native (ct : commandTagWrapper) :
    commandTagWrapper.RowsAffected ct = (ct.CommandTag.RowsAffected, none) := rfl

/-- C6: the pgx adapter's non-cancellable QueryRow returns exactly the
result of the cancellable native QueryRow at the background context, a
context carrying no deadline and no cancellation signal. -/
theorem pgxRunner_queryRow_background (p : Pgx) (q : String) (a : List Arg) :
    pgxRunner.QueryRow (pgxRunner.mk p) q a = p.QueryRow Ctx.Background q a ∧
    Ctx.Background.hasDeadline = false ∧ Ctx.Background.hasCancel = false :=
  ⟨rfl, rfl, rfl⟩

/-- C7: Columns on the pgx cursor wrapper returns the introspection error
and no column list when the native field-description list is nil, and
otherwise returns the names of the field descriptions in order, one name
per field description. -/
theorem pgxRowsWrapper_columns_introspection (r : PgxRowsWrapper) :
    (r.Rows.FieldDescriptions = none →
      PgxRowsWrapper.Columns r = (none, some (GoError.mk "no field descriptions"))) ∧
    (∀ fields, r.Rows.FieldDescriptions = some fields →
      PgxRowsWrapper.Columns r = (some (fields.map FieldDescription.Name), none) ∧
      (fields.map FieldDescription.Name).length = fields.length) := by
  constructor
  · intro h
    simp [PgxRowsWrapper.Columns, h]
  · intro fields h
    simp [PgxRowsWrapper.Columns, h]

/-- C7 witness: the theorem instantiated at a cursor with a nil list and at
a cursor with two named field descriptions. -/
theorem pgxRowsWrapper_columns_introspection_witness :
    PgxRowsWrapper.Columns (PgxRowsWrapper.mk pgxRowsNilFieldsEx) =
      (none, some (GoError.mk "no field descriptions")) ∧
    PgxRowsWrapper.Columns (PgxRowsWrapper.mk pgxRowsNamedFieldsEx) =
      (some ["id", "name"], none) :=
  ⟨(pgxRowsWrapper_columns_introspection (PgxRowsWrapper.mk pgxRowsNilFieldsEx)).1 rfl,
    ((pgxRowsWrapper_columns_introspection (PgxRowsWrapper.mk pgxRowsNamedFieldsEx)).2
      [FieldDescription.mk "id", FieldDescription.mk "name"] rfl).1⟩

/-- C8: the standard cursor wrapper's Close discards the error returned by
the native Close, surfacing nothing (only the post-close handle remains);
the error stays observable solely through a later Err call, via whatever
the native client records there after closing. -/
theorem stdRowsWrapper_close_swallows (r : StdRowsWrapper) (e : GoError)
    (h : (r.Rows.Close).1 = some e) :
    StdRowsWrapper.Close r = StdRowsWrapper.mk (r.Rows.Close).2 ∧
    StdRowsWrapper.Err (StdRowsWrapper.Close r) = r.Rows.errAfterClose :=
  ⟨rfl, rfl⟩

/-- C8 witness: the theorem instantiated at a native cursor whose Close
errs and whose client records that error for later Err calls. -/
theorem stdRowsWrapper_close_swallows_witness :
    (SqlRows.Close sqlRowsEx).1 = some (GoError.mk "close failed") ∧
    StdRowsWrapper.Err (StdRowsWrapper.Close (StdRowsWrapper.mk sqlRowsEx)) =
      some (GoError.mk "close failed") :=
  ⟨rfl, (stdRowsWrapper_close_swallows (StdRowsWrapper.mk sqlRowsEx)
    (GoError.mk "close failed") rfl).2⟩

/-- C9: a non-nil but empty field-description list yields an empty column
list with a nil error; the introspection error arises only for a nil
list, never for a non-nil one. -/
theorem pgxRowsWrapper_columns_empty_fields (r : PgxRowsWrapper)
    (h : r.Rows.FieldDescriptions = some []) :
    PgxRowsWrapper.Columns r = (some [], none) ∧
    ∀ (rr : PgxRowsWrapper) (fields : List FieldDescription),
      rr.Rows.FieldDescriptions = some fields →
      (PgxRowsWrapper.Columns rr).2 = none := by
  constructor
  · simp [PgxRowsWrapper.Columns, h]
  · intro rr fields hf
    simp [PgxRowsWrapper.Columns, hf]

/-- C9 witness: the theorem instantiated at a cursor with a non-nil empty
field-description list. -/
theorem pgxRowsWrapper_columns_empty_fields_witness :
    PgxRows.FieldDescriptions pgxRowsEmptyFieldsEx = some [] ∧
    PgxRowsWrapper.Columns (PgxRowsWrapper.mk pgxRowsEmptyFieldsEx) = (some [], none) :=
  ⟨rfl, (pgxRowsWrapper_columns_empty_fields
    (PgxRowsWrapper.mk pgxRowsEmptyFieldsEx) rfl).1⟩

/-- C10 counterexample: a Pgx client whose Exec reports an error alongside
a command tag with 5 affected rows: the adapter's ExecContext wraps that
tag, not the zero-valued one, so the claim that the outcome wraps the
zero-valued native command tag fails at this concrete input. -/
theorem pgxRunner_execContext_not_zero_tag_cex :
    (pgxRunner.ExecContext (pgxRunner.mk pgxErrEx) Ctx.Background "q" []).2 =
      some (GoError.mk "exec failed") ∧
    (pgxRunner.ExecContext (pgxRunner.mk pgxErrEx) Ctx.Background "q" []).1 ≠
      some (commandTagWrapper.mk (CommandTag.mk 0)).toResult := by
  exact ⟨rfl, by decide⟩

/-- C10 (amended): when the native Exec returns a non-nil error, the pgx
adapter's ExecContext still returns a non-nil execution outcome alongside
that error — a wrapper around whatever command tag the native Exec
returned — rather than a nil result. -/
theorem pgxRunner_execContext_error_nonnil_outcome (p : Pgx) (ctx : Ctx)
    (q : String) (a : List Arg) (e : GoError)
    (h : (p.Exec ctx q a).2 = some e) :
    pgxRunner.ExecContext (pgxRunner.mk p) ctx q a =
      (some (commandTagWrapper.mk (p.Exec ctx q a).1).toResult, some e) ∧
    (pgxRunner.ExecContext (pgxRunner.mk p) ctx q a).1 ≠ none := by
  have hdef : pgxRunner.ExecContext (pgxRunner.mk p) ctx q a =
      (some (commandTagWrapper.mk (p.Exec ctx q a).1).toResult, (p.Exec ctx q a).2) := rfl
  refine ⟨?_, ?_⟩
  · rw [hdef, h]
  · rw [hdef]
    simp

/-- C10 witness: the amended theorem instantiated at the failing Pgx
client. -/
theorem pgxRunner_execContext_error_nonnil_outcome_witness :
    (Pgx.Exec pgxErrEx Ctx.Background "q" []).2 = some (GoError.mk "exec failed") ∧
    pgxRunner.ExecContext (pgxRunner.mk pgxErrEx) Ctx.Background "q" [] =
      (some (commandTagWrapper.mk (CommandTag.mk 5)).toResult,
        some (GoError.mk "exec failed")) :=
  ⟨rfl, (pgxRunner_execContext_error_nonnil_outcome pgxErrEx Ctx.Background "q" []
    (GoError.mk "exec failed") rfl).1⟩
